import Mathlib

/-!
# SupplyChain-Guardian: alert generation and severity classification

A shallow embedding of `SupplyChainGuardian.go` and the properties of its
risk evaluator (`generateDependencyAlerts`), severity classifier
(`getSeverityFromCVSS`), trust check and SBOM signer.

Modelling conventions

* Go `string` values are Lean `String`s; `fmt.Sprintf` with `%s` verbs is
  concatenation and `strings.HasPrefix` is the prefix test on the characters.
* Go `float64` is `Float64` below: not-a-number, the two infinities, or a
  finite value (a rational; every finite binary64 value is one).  Only the
  ordered comparisons are needed, and they are exact on this model.
* Go `map[string]T` is a partial function `String → Option T`; the
  two-result lookup `v, ok := m[k]` is `m k`.
* `time.Now()` reads an explicit clock: a stream of readings, one consumed per
  call.
-/

namespace SupplyChainGuardian

/-! ## Primitive types -/

/-- An instant (`time.Time`), as a count of nanoseconds. -/
abbrev Time := Int

/-- The wall clock behind `time.Now()`: reading `k` is what the `k`-th next call
returns. -/
abbrev Clock := Nat → Time

/-- One call of `time.Now()`: the current reading and the clock afterwards. -/
def Clock.now (c : Clock) : Time × Clock := (c 0, fun k => c (k + 1))

/-- The clock after `n` calls of `time.Now()`. -/
def Clock.advance (c : Clock) (n : Nat) : Clock := fun k => c (k + n)

/-- A Go `float64` as the comparison operators see it. -/
inductive Float64 where
  | nan
  | negInf
  | fin (q : ℚ)
  | posInf
  deriving DecidableEq

namespace Float64

/-- Go `a <= b` on `float64`: false as soon as one side is not a number. -/
def le : Float64 → Float64 → Bool
  | nan, _ => false
  | _, nan => false
  | negInf, _ => true
  | _, posInf => true
  | fin a, fin b => decide (a ≤ b)
  | fin _, negInf => false
  | posInf, fin _ => false
  | posInf, negInf => false

/-- Go `a >= b` on `float64`. -/
def ge (a b : Float64) : Bool := le b a

/-- Go `a < b` on `float64`: false as soon as one side is not a number. -/
def lt : Float64 → Float64 → Bool
  | nan, _ => false
  | _, nan => false
  | _, negInf => false
  | posInf, _ => false
  | fin a, fin b => decide (a < b)
  | negInf, fin _ => true
  | negInf, posInf => true
  | fin _, posInf => true

/-- The value is a number (finite or infinite), not a NaN. -/
def isNumber : Float64 → Bool
  | nan => false
  | _ => true

end Float64

/-- A Go map with string keys: the lookup `v, ok := m[k]`. -/
abbrev GoMap (β : Type) := String → Option β

/-- The map `make(map[string]T)`: no key is present. -/
def GoMap.empty {β : Type} : GoMap β := fun _ => none

/-- The map after `m[k] = v`. -/
def GoMap.insert {β : Type} (m : GoMap β) (k : String) (v : β) : GoMap β :=
  fun k' => if k' = k then some v else m k'

/-- Go `strings.HasPrefix(s, p)`. -/
def HasPrefix (s p : String) : Bool := p.data.isPrefixOf s.data

/-! ## Data model (lines 9-52) -/

/-- Vulnerability: a security vulnerability in a package. -/
structure Vulnerability where
  ID : String
  CVSS : Float64
  Description : String
  FixedIn : String
  DiscoveredAt : Time
  deriving DecidableEq

/-- Package: a software package dependency. -/
structure Package where
  Name : String
  Version : String
  Source : String
  Hash : String
  Signatures : List String
  Vulnerabilities : List Vulnerability
  deriving DecidableEq

/-- SBOM: a software bill of materials. -/
structure SBOM where
  ProjectName : String
  Version : String
  GeneratedAt : Time
  Dependencies : List Package
  SignatureChain : List String
  deriving DecidableEq

/-- Alert: a security alert. -/
structure Alert where
  Severity : String
  Message : String
  Package : Package
  DetectedAt : Time
  Remediation : String
  deriving DecidableEq

/-- The guardian service state.  `AlertChannel` is the content of the buffered
channel (capacity 100); no function below sends to it. -/
structure Guardian where
  VulnerabilityDB : GoMap (List Vulnerability)
  TrustedSources : List String
  KnownMaliciousHashes : GoMap String
  AlertChannel : List Alert

/-! ## Severity classification (lines 144-153) -/

/-- The threshold cascade of `getSeverityFromCVSS`. -/
def getSeverityFromCVSS (score : Float64) : String :=
  if score.ge (.fin 9) then "CRITICAL"
  else if score.ge (.fin 7) then "HIGH"
  else if score.ge (.fin 4) then "MEDIUM"
  else "LOW"

/-! ## Lookups (lines 171-198) -/

/-- The loop of `isFromTrustedSource`: return true at the first trusted source
that `source` starts with, false when the range is exhausted. -/
def isFromTrustedSource.loop (source : String) : List String → Bool
  | [] => false
  | s :: rest => if HasPrefix source s then true else isFromTrustedSource.loop source rest

/-- The method `isFromTrustedSource`. -/
def isFromTrustedSource (scg : Guardian) (pkg : Package) : Bool :=
  isFromTrustedSource.loop pkg.Source scg.TrustedSources

/-- The method `checkVulnerabilities`: the entry stored under the key
`fmt.Sprintf("%s@%s", pkg.Name, pkg.Version)`, or an empty slice. -/
def checkVulnerabilities (scg : Guardian) (pkg : Package) : List Vulnerability :=
  let key := pkg.Name ++ "@" ++ pkg.Version
  match scg.VulnerabilityDB key with
  | some vulns => vulns
  | none => []

/-- The method `verifySignatures`: the placeholder accepts every package. -/
def verifySignatures (_scg : Guardian) (_pkg : Package) : Bool := true

/-- The method `generateSBOMSignature`: the placeholder returns a fixed chain. -/
def generateSBOMSignature (_scg : Guardian) (_sbom : SBOM) : List String :=
  ["signature1", "signature2"]

/-! ## Risk evaluator (lines 98-142) -/

/-- The statement `alerts = append(alerts, Alert{..., DetectedAt: time.Now(), ...})`
on the pair of the alert slice and the clock; `mk` is the struct literal with
the reading of `time.Now()` left open. -/
def emit (st : List Alert × Clock) (mk : Time → Alert) : List Alert × Clock :=
  (st.1 ++ [mk st.2.now.1], st.2.now.2)

/-- The body of `generateDependencyAlerts`, with the signature verifier it calls
as a parameter (the source passes the method `verifySignatures`). Returns the
alert slice and the clock after the call. -/
def generateDependencyAlertsWith (verify : Guardian → Package → Bool)
    (scg : Guardian) (dep : Package) (clock : Clock) : List Alert × Clock :=
  let st : List Alert × Clock := ([], clock)
  let st :=
    if !isFromTrustedSource scg dep then
      emit st (fun now =>
        { Severity := "HIGH"
          Message := "Package " ++ dep.Name ++ " from untrusted source: " ++ dep.Source
          Package := dep
          DetectedAt := now
          Remediation := "Switch to a version from a trusted repository" })
    else st
  let vulns := checkVulnerabilities scg dep
  let st :=
    vulns.foldl (fun st vuln =>
      emit st (fun now =>
        { Severity := getSeverityFromCVSS vuln.CVSS
          Message := "Vulnerability " ++ vuln.ID ++ " found in " ++ dep.Name ++ "@"
            ++ dep.Version ++ ": " ++ vuln.Description
          Package := dep
          DetectedAt := now
          Remediation := "Update to version " ++ vuln.FixedIn ++ " or later" })) st
  let st :=
    match scg.KnownMaliciousHashes dep.Hash with
    | some maliciousReason =>
      emit st (fun now =>
        { Severity := "CRITICAL"
          Message := "MALICIOUS PACKAGE DETECTED: " ++ dep.Name ++ "@" ++ dep.Version
            ++ " - " ++ maliciousReason
          Package := dep
          DetectedAt := now
          Remediation := "Remove package immediately and investigate system compromise" })
    | none => st
  let st :=
    if dep.Signatures.length > 0 && !verify scg dep then
      emit st (fun now =>
        { Severity := "HIGH"
          Message := "Invalid signature for package " ++ dep.Name ++ "@" ++ dep.Version
          Package := dep
          DetectedAt := now
          Remediation := "Verify package integrity and source" })
    else st
  st

/-- The method `generateDependencyAlerts`. -/
def generateDependencyAlerts (scg : Guardian) (dep : Package) (clock : Clock) :
    List Alert × Clock :=
  generateDependencyAlertsWith verifySignatures scg dep clock

/-! ## Scan orchestrator (lines 54-94, 155-211) -/

/-- The constructor `NewSupplyChainGuardian`. -/
def NewSupplyChainGuardian : Guardian :=
  { VulnerabilityDB := GoMap.empty
    TrustedSources := ["https://registry.npmjs.org", "https://pypi.org", "https://repo1.maven.org"]
    KnownMaliciousHashes := GoMap.empty
    AlertChannel := [] }

/-- The placeholder `scanNodeDependencies`. -/
def scanNodeDependencies (_scg : Guardian) (_projectPath : String) : List Package := []

/-- The placeholder `scanPythonDependencies`. -/
def scanPythonDependencies (_scg : Guardian) (_projectPath : String) : List Package := []

/-- The placeholder `scanMavenDependencies`. -/
def scanMavenDependencies (_scg : Guardian) (_projectPath : String) : List Package := []

/-- The helper `getProjectName`. -/
def getProjectName (_path : String) : String := "example-project"

/-- The helper `getProjectVersion`. -/
def getProjectVersion (_path : String) : String := "1.0.0"

/-- The helper `fileExists` (simplified in the source to `true`). -/
def fileExists (_path : String) : Bool := true

/-- The method `ScanProject`: the SBOM, the alerts, and the clock afterwards. -/
def ScanProject (scg : Guardian) (projectPath : String) (clock : Clock) :
    (SBOM × List Alert) × Clock :=
  let sbom : SBOM :=
    { ProjectName := getProjectName projectPath
      Version := getProjectVersion projectPath
      GeneratedAt := clock.now.1
      Dependencies := []
      SignatureChain := [] }
  let clock := clock.now.2
  let alerts : List Alert := []
  let sbom :=
    if fileExists (projectPath ++ "/package.json") then
      { sbom with Dependencies := sbom.Dependencies ++ scanNodeDependencies scg projectPath }
    else if fileExists (projectPath ++ "/requirements.txt") then
      { sbom with Dependencies := sbom.Dependencies ++ scanPythonDependencies scg projectPath }
    else if fileExists (projectPath ++ "/pom.xml") then
      { sbom with Dependencies := sbom.Dependencies ++ scanMavenDependencies scg projectPath }
    else sbom
  let st : List Alert × Clock :=
    sbom.Dependencies.foldl (fun st dep =>
      let r := generateDependencyAlerts scg dep st.2
      (st.1 ++ r.1, r.2)) (alerts, clock)
  let sbom := { sbom with SignatureChain := generateSBOMSignature scg sbom }
  ((sbom, st.1), st.2)

/-! ## Specification vocabulary -/

/-- The alert is an untrusted-source alert: its message opens as line 104 does. -/
def isUntrustedSourceAlert (a : Alert) : Bool := HasPrefix a.Message "Package "

/-- The alert is a vulnerability alert: its message opens as line 115 does. -/
def isVulnerabilityAlert (a : Alert) : Bool := HasPrefix a.Message "Vulnerability "

/-- The alert is a malicious-package alert: its message opens as line 125 does. -/
def isMaliciousPackageAlert (a : Alert) : Bool :=
  HasPrefix a.Message "MALICIOUS PACKAGE DETECTED"

/-- The alert is an invalid-signature alert: its message opens as line 135 does. -/
def isInvalidSignatureAlert (a : Alert) : Bool := HasPrefix a.Message "Invalid signature"

/-- The untrusted-source alert for `dep`, detection time left open. -/
def untrustedSourceAlert (dep : Package) (t : Time) : Alert :=
  { Severity := "HIGH"
    Message := "Package " ++ dep.Name ++ " from untrusted source: " ++ dep.Source
    Package := dep
    DetectedAt := t
    Remediation := "Switch to a version from a trusted repository" }

/-- The vulnerability alert for `vuln` in `dep`, detection time left open. -/
def vulnerabilityAlert (dep : Package) (vuln : Vulnerability) (t : Time) : Alert :=
  { Severity := getSeverityFromCVSS vuln.CVSS
    Message := "Vulnerability " ++ vuln.ID ++ " found in " ++ dep.Name ++ "@"
      ++ dep.Version ++ ": " ++ vuln.Description
    Package := dep
    DetectedAt := t
    Remediation := "Update to version " ++ vuln.FixedIn ++ " or later" }

/-- The malicious-package alert for `dep`, detection time left open. -/
def maliciousPackageAlert (dep : Package) (reason : String) (t : Time) : Alert :=
  { Severity := "CRITICAL"
    Message := "MALICIOUS PACKAGE DETECTED: " ++ dep.Name ++ "@" ++ dep.Version
      ++ " - " ++ reason
    Package := dep
    DetectedAt := t
    Remediation := "Remove package immediately and investigate system compromise" }

/-- The invalid-signature alert for `dep`, detection time left open. -/
def invalidSignatureAlert (dep : Package) (t : Time) : Alert :=
  { Severity := "HIGH"
    Message := "Invalid signature for package " ++ dep.Name ++ "@" ++ dep.Version
    Package := dep
    DetectedAt := t
    Remediation := "Verify package integrity and source" }

/-- The vulnerabilities the index stores for the pair `(Name, Version)`, under
its key `Name@Version`; none when the key is absent. -/
def storedVulnerabilities (scg : Guardian) (dep : Package) : List Vulnerability :=
  (scg.VulnerabilityDB (dep.Name ++ "@" ++ dep.Version)).getD []

/-- Group (1): one untrusted-source alert if the source starts with no trusted
source. -/
def untrustedSection (scg : Guardian) (dep : Package) : List (Time → Alert) :=
  if ∀ s ∈ scg.TrustedSources, HasPrefix dep.Source s = false
  then [untrustedSourceAlert dep] else []

/-- Group (2): one vulnerability alert per stored vulnerability, in stored order. -/
def vulnerabilitySection (scg : Guardian) (dep : Package) : List (Time → Alert) :=
  (storedVulnerabilities scg dep).map (vulnerabilityAlert dep)

/-- Group (3): one malicious-package alert if the hash is a key of the registry. -/
def maliciousSection (scg : Guardian) (dep : Package) : List (Time → Alert) :=
  match scg.KnownMaliciousHashes dep.Hash with
  | some reason => [maliciousPackageAlert dep reason]
  | none => []

/-- Group (4): one invalid-signature alert if there are signatures and the
verifier rejects the package. -/
def signatureSection (verify : Guardian → Package → Bool) (scg : Guardian) (dep : Package) :
    List (Time → Alert) :=
  if dep.Signatures ≠ [] ∧ verify scg dep = false
  then [invalidSignatureAlert dep] else []

/-- The canonical order of section 4.1: the four groups of alerts one after the
other, each alert with its detection time left open. -/
def canonicalOrder (verify : Guardian → Package → Bool) (scg : Guardian) (dep : Package) :
    List (Time → Alert) :=
  untrustedSection scg dep ++ vulnerabilitySection scg dep ++ maliciousSection scg dep
    ++ signatureSection verify scg dep

/-- Stamp the `k`-th alert with the `k`-th reading of the clock. -/
def stamp (clock : Clock) : List (Time → Alert) → List Alert
  | [] => []
  | f :: fs => f (clock 0) :: stamp clock.now.2 fs

/-- An alert without its detection time. -/
def Alert.content (a : Alert) : String × String × SupplyChainGuardian.Package × String :=
  (a.Severity, a.Message, a.Package, a.Remediation)

/-- Go `strings.Contains(s, sub)`. -/
def Contains (s sub : String) : Bool := s.data.tails.any (fun t => sub.data.isPrefixOf t)

/-- The index key `checkVulnerabilities` builds for a package (line 181). -/
def indexKey (pkg : Package) : String := pkg.Name ++ "@" ++ pkg.Version

/-- The order LOW < MEDIUM < HIGH < CRITICAL as a rank; 0 for any other string. -/
def severityRank (s : String) : Nat :=
  if s = "CRITICAL" then 4
  else if s = "HIGH" then 3
  else if s = "MEDIUM" then 2
  else if s = "LOW" then 1
  else 0

/-! ## Concrete inputs -/

/-- A clock that reads 1000, 1001, 1002, ... -/
def tickingClock : Clock := fun k => 1000 + k

/-- A verifier that rejects every package. -/
def rejectAll (_scg : Guardian) (_pkg : Package) : Bool := false

/-- The guardian of `NewSupplyChainGuardian` with one malicious hash and one
index entry registered. -/
def sampleGuardian : Guardian :=
  { NewSupplyChainGuardian with
    KnownMaliciousHashes := GoMap.insert GoMap.empty "abc123" "typosquat"
    VulnerabilityDB := GoMap.insert GoMap.empty "left-pad@1.0.0"
      [ { ID := "CVE-1", CVSS := .fin (mkRat 19 2), Description := "rce", FixedIn := "2.0.0",
          DiscoveredAt := 0 },
        { ID := "CVE-2", CVSS := .fin 5, Description := "dos", FixedIn := "",
          DiscoveredAt := 0 } ] }

/-- A signed package from a trusted registry whose hash is registered as
malicious and which has two index entries. -/
def samplePackage : Package :=
  { Name := "left-pad", Version := "1.0.0", Source := "https://registry.npmjs.org/left-pad",
    Hash := "abc123", Signatures := ["sig"], Vulnerabilities := [] }

/-- An unsigned package from an unknown registry, absent from the index. -/
def strayPackage : Package :=
  { Name := "rimraf", Version := "0.1.0", Source := "https://evil.example/rimraf",
    Hash := "ffff", Signatures := [], Vulnerabilities := [] }

/-- A guardian whose index holds one vulnerability without a fixed version. -/
def unfixedGuardian : Guardian :=
  { NewSupplyChainGuardian with
    VulnerabilityDB := GoMap.insert GoMap.empty "rimraf@0.1.0"
      [ { ID := "CVE-3", CVSS := .fin 5, Description := "dos", FixedIn := "",
          DiscoveredAt := 0 } ] }

/-- A package from a trusted registry, with the entry of `unfixedGuardian`. -/
def unfixedPackage : Package :=
  { Name := "rimraf", Version := "0.1.0", Source := "https://pypi.org/rimraf",
    Hash := "0000", Signatures := [], Vulnerabilities := [] }

/-- The SBOM as `ScanProject` hands it to the signer: nothing signed yet. -/
def unsignedSBOM : SBOM :=
  { ProjectName := "example-project", Version := "1.0.0", GeneratedAt := 1000,
    Dependencies := [], SignatureChain := [] }

/-- An SBOM that already carries three signatures. -/
def resignedSBOM : SBOM :=
  { unsignedSBOM with SignatureChain := ["s1", "s2", "s3"] }

/-- The statement `scg.KnownMaliciousHashes[hash] = reason`. -/
def registerMalicious (scg : Guardian) (hash reason : String) : Guardian :=
  { scg with KnownMaliciousHashes := GoMap.insert scg.KnownMaliciousHashes hash reason }

/-- The statement `scg.VulnerabilityDB[key] = vulns`. -/
def registerVulnerabilities (scg : Guardian) (key : String) (vulns : List Vulnerability) :
    Guardian :=
  { scg with VulnerabilityDB := GoMap.insert scg.VulnerabilityDB key vulns }

/-- The package of the first example of section 8. -/
def leftPad : Package :=
  { Name := "left-pad", Version := "1.0.0", Source := "https://evil.example",
    Hash := "abc123", Signatures := [], Vulnerabilities := [] }

/-- A vulnerability with CVSS 9.5 that is fixed in "2.0.0". -/
def criticalVulnerability : Vulnerability :=
  { ID := "CVE-4", CVSS := .fin (mkRat 19 2), Description := "rce", FixedIn := "2.0.0",
    DiscoveredAt := 0 }

/-- An unsigned package from a trusted registry, with an unregistered hash. -/
def expressPackage : Package :=
  { Name := "express", Version := "1.0.0", Source := "https://registry.npmjs.org/express",
    Hash := "1234", Signatures := [], Vulnerabilities := [] }

/-- The guardian of `NewSupplyChainGuardian` whose index holds the one entry
`criticalVulnerability` for `expressPackage`. -/
def expressGuardian : Guardian :=
  registerVulnerabilities NewSupplyChainGuardian "express@1.0.0" [criticalVulnerability]

/-- A guardian whose index holds scores outside the CVSS range for
`unfixedPackage`: a NaN, 42 and minus infinity. -/
def oddScoreGuardian : Guardian :=
  registerVulnerabilities NewSupplyChainGuardian "rimraf@0.1.0"
    [ { ID := "CVE-5", CVSS := .nan, Description := "odd", FixedIn := "", DiscoveredAt := 0 },
      { ID := "CVE-6", CVSS := .fin 42, Description := "odd", FixedIn := "", DiscoveredAt := 0 },
      { ID := "CVE-7", CVSS := .negInf, Description := "odd", FixedIn := "", DiscoveredAt := 0 } ]

/-- The alert `generateDependencyAlerts` builds first for `unfixedPackage` under
`oddScoreGuardian` and `tickingClock`: the one for the NaN score. -/
def oddScoreAlert : Alert :=
  { Severity := "LOW"
    Message := "Vulnerability CVE-5 found in rimraf@0.1.0: odd"
    Package := unfixedPackage
    DetectedAt := 1000
    Remediation := "Update to version  or later" }

/-- A package whose name holds the separator: its index key is "lodash@4@1". -/
def namedWithSeparator : Package :=
  { Name := "lodash@4", Version := "1", Source := "https://registry.npmjs.org/lodash",
    Hash := "aaaa", Signatures := [], Vulnerabilities := [] }

/-- A package whose version holds the separator: its index key is "lodash@4@1" too. -/
def versionedWithSeparator : Package :=
  { Name := "lodash", Version := "4@1", Source := "https://registry.npmjs.org/lodash",
    Hash := "bbbb", Signatures := [], Vulnerabilities := [] }

/-- The guardian of `NewSupplyChainGuardian` with one entry stored for
`namedWithSeparator`. -/
def separatorGuardian : Guardian :=
  registerVulnerabilities NewSupplyChainGuardian (indexKey namedWithSeparator)
    [criticalVulnerability]

/-- An SBOM that differs from `unsignedSBOM` in every field. -/
def otherSBOM : SBOM :=
  { ProjectName := "other-project", Version := "9.9.9", GeneratedAt := 77,
    Dependencies := [samplePackage, strayPackage], SignatureChain := ["old"] }

/-! ## Strings -/

theorem hasPrefix_iff (s p : String) : HasPrefix s p = true ↔ p.data <+: s.data := by
  simp [HasPrefix]

theorem hasPrefix_append_of_hasPrefix (a rest p : String) (h : HasPrefix a p = true) :
    HasPrefix (a ++ rest) p = true := by
  rw [hasPrefix_iff] at *
  rw [String.data_append]
  exact h.trans (List.prefix_append _ _)

/-- Two strings that part ways before either ends stay apart whatever follows. -/
theorem hasPrefix_append_of_diverge (a rest p : String)
    (h1 : HasPrefix a p = false) (h2 : HasPrefix p a = false) :
    HasPrefix (a ++ rest) p = false := by
  rw [Bool.eq_false_iff] at *
  intro h
  rw [hasPrefix_iff, String.data_append] at h
  rcases List.prefix_or_prefix_of_prefix h (List.prefix_append a.data rest.data) with hp | hp
  · exact h1 ((hasPrefix_iff _ _).2 hp)
  · exact h2 ((hasPrefix_iff _ _).2 hp)

theorem contains_iff (s sub : String) : Contains s sub = true ↔ sub.data <:+: s.data := by
  simp only [Contains, List.any_eq_true, List.mem_tails, List.isPrefixOf_iff_prefix]
  rw [List.infix_iff_prefix_suffix]
  exact ⟨fun ⟨t, h1, h2⟩ => ⟨t, h2, h1⟩, fun ⟨t, h1, h2⟩ => ⟨t, h2, h1⟩⟩

theorem contains_middle (a m b : String) : Contains (a ++ m ++ b) m = true := by
  rw [contains_iff]
  exact ⟨a.data, b.data, by simp [String.data_append]⟩

/-! ## The clock and the alert slice -/

theorem Clock.advance_zero (c : Clock) : c.advance 0 = c := rfl

theorem Clock.advance_advance (c : Clock) (m n : Nat) :
    (c.advance m).advance n = c.advance (m + n) := by
  funext k
  simp [Clock.advance, Nat.add_assoc, Nat.add_comm n m]

theorem Clock.now_snd (c : Clock) : c.now.2 = c.advance 1 := rfl

theorem stamp_append (c : Clock) (fs gs : List (Time → Alert)) :
    stamp c (fs ++ gs) = stamp c fs ++ stamp (c.advance fs.length) gs := by
  induction fs generalizing c with
  | nil => rfl
  | cons f fs ih =>
    simp [stamp, ih, Clock.now_snd, Clock.advance_advance, Nat.add_comm 1]

theorem length_stamp (c : Clock) (fs : List (Time → Alert)) :
    (stamp c fs).length = fs.length := by
  induction fs generalizing c with
  | nil => rfl
  | cons f fs ih => simp [stamp, ih]

theorem mem_stamp {c : Clock} {fs : List (Time → Alert)} {a : Alert} (h : a ∈ stamp c fs) :
    ∃ f ∈ fs, ∃ t, a = f t := by
  induction fs generalizing c with
  | nil => simp [stamp] at h
  | cons f fs ih =>
    simp only [stamp, List.mem_cons] at h
    rcases h with h | h
    · exact ⟨f, List.mem_cons_self _ _, c 0, h⟩
    · obtain ⟨g, hg, t, ht⟩ := ih h
      exact ⟨g, List.mem_cons_of_mem _ hg, t, ht⟩

theorem stamp_map_vulnerabilityAlert (c : Clock) (dep : Package) (vs : List Vulnerability) :
    (stamp c (vs.map (vulnerabilityAlert dep))).map Alert.Severity
      = vs.map (fun v => getSeverityFromCVSS v.CVSS) := by
  induction vs generalizing c with
  | nil => rfl
  | cons v vs ih => simp [stamp, ih, vulnerabilityAlert]

/-- Appending the alerts of a list of open struct literals, one clock reading each. -/
theorem foldl_emit (fs : List (Time → Alert)) (as : List Alert) (c : Clock) :
    fs.foldl emit (as, c) = (as ++ stamp c fs, c.advance fs.length) := by
  induction fs generalizing as c with
  | nil => simp [stamp, Clock.advance_zero]
  | cons f fs ih =>
    simp only [List.foldl_cons, emit, ih, stamp, List.append_assoc, List.singleton_append,
      List.length_cons, Clock.now_snd, Clock.advance_advance, Nat.add_comm 1]
    rfl

/-! ## The trust check -/

theorem isFromTrustedSource_loop_iff (source : String) (l : List String) :
    isFromTrustedSource.loop source l = true ↔ ∃ s ∈ l, HasPrefix source s = true := by
  induction l with
  | nil => simp [isFromTrustedSource.loop]
  | cons s rest ih =>
    by_cases h : HasPrefix source s = true
    · simp [isFromTrustedSource.loop, h]
    · simp [isFromTrustedSource.loop, h, ih]

theorem isFromTrustedSource_eq_false_iff (scg : Guardian) (pkg : Package) :
    isFromTrustedSource scg pkg = false ↔
      ∀ s ∈ scg.TrustedSources, HasPrefix pkg.Source s = false := by
  rw [← Bool.not_eq_true, isFromTrustedSource, isFromTrustedSource_loop_iff]
  simp

theorem checkVulnerabilities_eq (scg : Guardian) (pkg : Package) :
    checkVulnerabilities scg pkg = storedVulnerabilities scg pkg := by
  unfold checkVulnerabilities storedVulnerabilities
  show (match scg.VulnerabilityDB (pkg.Name ++ "@" ++ pkg.Version) with
    | some vulns => vulns
    | none => []) = _
  generalize scg.VulnerabilityDB (pkg.Name ++ "@" ++ pkg.Version) = o
  cases o <;> rfl

/-! ## The risk evaluator runs the canonical order -/

theorem generateDependencyAlertsWith_foldl (verify : Guardian → Package → Bool)
    (scg : Guardian) (dep : Package) (clock : Clock) :
    generateDependencyAlertsWith verify scg dep clock
      = (canonicalOrder verify scg dep).foldl emit ([], clock) := by
  unfold generateDependencyAlertsWith canonicalOrder untrustedSection vulnerabilitySection
    maliciousSection signatureSection
  simp only [List.foldl_append, checkVulnerabilities_eq, List.foldl_map]
  have h1 : ∀ (b : Bool) (p : Prop) [Decidable p] (f : Time → Alert) (st : List Alert × Clock),
      (b = true ↔ p) →
      (if b = true then emit st f else st) = (if p then [f] else []).foldl emit st := by
    intro b p _ f st hb
    by_cases hp : p
    · simp [hp, hb.2 hp]
    · have : b = false := by
        cases b
        · rfl
        · exact absurd (hb.1 rfl) hp
      simp [hp, this]
  have h2 : ∀ (o : Option String) (f : String → Time → Alert) (st : List Alert × Clock),
      (match o with
        | some r => emit st (f r)
        | none => st)
      = (match o with
        | some r => [f r]
        | none => []).foldl emit st := by
    intro o f st
    cases o <;> rfl
  rw [h1 (!isFromTrustedSource scg dep) (∀ s ∈ scg.TrustedSources, HasPrefix dep.Source s = false)
    _ _ (by rw [Bool.not_eq_true', isFromTrustedSource_eq_false_iff])]
  rw [h1 (decide (dep.Signatures.length > 0) && !verify scg dep)
    (dep.Signatures ≠ [] ∧ verify scg dep = false) _ _ (by simp [List.length_pos])]
  rw [h2 (scg.KnownMaliciousHashes dep.Hash) (fun r now =>
    { Severity := "CRITICAL"
      Message := "MALICIOUS PACKAGE DETECTED: " ++ dep.Name ++ "@" ++ dep.Version ++ " - " ++ r
      Package := dep
      DetectedAt := now
      Remediation := "Remove package immediately and investigate system compromise" })]
  rfl

theorem generateDependencyAlertsWith_eq (verify : Guardian → Package → Bool)
    (scg : Guardian) (dep : Package) (clock : Clock) :
    generateDependencyAlertsWith verify scg dep clock
      = (stamp clock (canonicalOrder verify scg dep),
          clock.advance (canonicalOrder verify scg dep).length) := by
  rw [generateDependencyAlertsWith_foldl, foldl_emit, List.nil_append]

/-! ## The four kinds of alert are told apart by their messages -/

theorem kind_untrustedSourceAlert (dep : Package) (t : Time) :
    isUntrustedSourceAlert (untrustedSourceAlert dep t) = true
    ∧ isVulnerabilityAlert (untrustedSourceAlert dep t) = false
    ∧ isMaliciousPackageAlert (untrustedSourceAlert dep t) = false
    ∧ isInvalidSignatureAlert (untrustedSourceAlert dep t) = false := by
  refine ⟨?_, ?_, ?_, ?_⟩ <;>
  simp only [isUntrustedSourceAlert, isVulnerabilityAlert, isMaliciousPackageAlert,
    isInvalidSignatureAlert, untrustedSourceAlert, String.append_assoc] <;>
  first
  | exact hasPrefix_append_of_hasPrefix _ _ _ (by decide)
  | exact hasPrefix_append_of_diverge _ _ _ (by decide) (by decide)

theorem kind_vulnerabilityAlert (dep : Package) (v : Vulnerability) (t : Time) :
    isUntrustedSourceAlert (vulnerabilityAlert dep v t) = false
    ∧ isVulnerabilityAlert (vulnerabilityAlert dep v t) = true
    ∧ isMaliciousPackageAlert (vulnerabilityAlert dep v t) = false
    ∧ isInvalidSignatureAlert (vulnerabilityAlert dep v t) = false := by
  refine ⟨?_, ?_, ?_, ?_⟩ <;>
  simp only [isUntrustedSourceAlert, isVulnerabilityAlert, isMaliciousPackageAlert,
    isInvalidSignatureAlert, vulnerabilityAlert, String.append_assoc] <;>
  first
  | exact hasPrefix_append_of_hasPrefix _ _ _ (by decide)
  | exact hasPrefix_append_of_diverge _ _ _ (by decide) (by decide)

theorem kind_maliciousPackageAlert (dep : Package) (r : String) (t : Time) :
    isUntrustedSourceAlert (maliciousPackageAlert dep r t) = false
    ∧ isVulnerabilityAlert (maliciousPackageAlert dep r t) = false
    ∧ isMaliciousPackageAlert (maliciousPackageAlert dep r t) = true
    ∧ isInvalidSignatureAlert (maliciousPackageAlert dep r t) = false := by
  refine ⟨?_, ?_, ?_, ?_⟩ <;>
  simp only [isUntrustedSourceAlert, isVulnerabilityAlert, isMaliciousPackageAlert,
    isInvalidSignatureAlert, maliciousPackageAlert, String.append_assoc] <;>
  first
  | exact hasPrefix_append_of_hasPrefix _ _ _ (by decide)
  | exact hasPrefix_append_of_diverge _ _ _ (by decide) (by decide)

theorem kind_invalidSignatureAlert (dep : Package) (t : Time) :
    isUntrustedSourceAlert (invalidSignatureAlert dep t) = false
    ∧ isVulnerabilityAlert (invalidSignatureAlert dep t) = false
    ∧ isMaliciousPackageAlert (invalidSignatureAlert dep t) = false
    ∧ isInvalidSignatureAlert (invalidSignatureAlert dep t) = true := by
  refine ⟨?_, ?_, ?_, ?_⟩ <;>
  simp only [isUntrustedSourceAlert, isVulnerabilityAlert, isMaliciousPackageAlert,
    isInvalidSignatureAlert, invalidSignatureAlert, String.append_assoc] <;>
  first
  | exact hasPrefix_append_of_hasPrefix _ _ _ (by decide)
  | exact hasPrefix_append_of_diverge _ _ _ (by decide) (by decide)

/-! ## Filtering a stamped group by kind -/

theorem filter_stamp_eq_nil (p : Alert → Bool) (c : Clock) (fs : List (Time → Alert))
    (h : ∀ f ∈ fs, ∀ t, p (f t) = false) : (stamp c fs).filter p = [] := by
  rw [List.filter_eq_nil_iff]
  intro a ha
  obtain ⟨f, hf, t, rfl⟩ := mem_stamp ha
  simp [h f hf t]

theorem filter_stamp_eq_self (p : Alert → Bool) (c : Clock) (fs : List (Time → Alert))
    (h : ∀ f ∈ fs, ∀ t, p (f t) = true) : (stamp c fs).filter p = stamp c fs := by
  rw [List.filter_eq_self]
  intro a ha
  obtain ⟨f, hf, t, rfl⟩ := mem_stamp ha
  exact h f hf t

/-- The alert slice, group by group, each group stamped from the clock as the
groups before it left it. -/
theorem alerts_by_section (verify : Guardian → Package → Bool)
    (scg : Guardian) (dep : Package) (clock : Clock) :
    (generateDependencyAlertsWith verify scg dep clock).1
      = stamp clock (untrustedSection scg dep)
        ++ stamp (clock.advance (untrustedSection scg dep).length) (vulnerabilitySection scg dep)
        ++ stamp (clock.advance ((untrustedSection scg dep).length
            + (vulnerabilitySection scg dep).length)) (maliciousSection scg dep)
        ++ stamp (clock.advance ((untrustedSection scg dep).length
            + (vulnerabilitySection scg dep).length + (maliciousSection scg dep).length))
            (signatureSection verify scg dep) := by
  rw [generateDependencyAlertsWith_eq]
  simp only [canonicalOrder, stamp_append, List.length_append, Clock.advance_advance]

theorem mem_untrustedSection {scg : Guardian} {dep : Package} {f : Time → Alert}
    (h : f ∈ untrustedSection scg dep) : f = untrustedSourceAlert dep := by
  unfold untrustedSection at h
  split at h <;> simp at h
  exact h

theorem mem_vulnerabilitySection {scg : Guardian} {dep : Package} {f : Time → Alert}
    (h : f ∈ vulnerabilitySection scg dep) :
    ∃ v ∈ storedVulnerabilities scg dep, f = vulnerabilityAlert dep v := by
  unfold vulnerabilitySection at h
  obtain ⟨v, hv, rfl⟩ := List.mem_map.1 h
  exact ⟨v, hv, rfl⟩

theorem mem_maliciousSection {scg : Guardian} {dep : Package} {f : Time → Alert}
    (h : f ∈ maliciousSection scg dep) :
    ∃ r, scg.KnownMaliciousHashes dep.Hash = some r ∧ f = maliciousPackageAlert dep r := by
  unfold maliciousSection at h
  split at h <;> simp at h
  next r hr => exact ⟨r, hr, h⟩

theorem mem_signatureSection {verify : Guardian → Package → Bool} {scg : Guardian}
    {dep : Package} {f : Time → Alert} (h : f ∈ signatureSection verify scg dep) :
    f = invalidSignatureAlert dep := by
  unfold signatureSection at h
  split at h <;> simp at h
  exact h

theorem filter_isUntrustedSourceAlert (verify : Guardian → Package → Bool)
    (scg : Guardian) (dep : Package) (clock : Clock) :
    (generateDependencyAlertsWith verify scg dep clock).1.filter isUntrustedSourceAlert
      = stamp clock (untrustedSection scg dep) := by
  rw [alerts_by_section]
  simp only [List.filter_append]
  rw [filter_stamp_eq_self _ _ (untrustedSection scg dep), filter_stamp_eq_nil _ _
    (vulnerabilitySection scg dep), filter_stamp_eq_nil _ _ (maliciousSection scg dep),
    filter_stamp_eq_nil _ _ (signatureSection verify scg dep)]
  · simp
  · intro f hf t
    rw [mem_signatureSection hf]
    exact (kind_invalidSignatureAlert dep t).1
  · intro f hf t
    obtain ⟨r, -, rfl⟩ := mem_maliciousSection hf
    exact (kind_maliciousPackageAlert dep r t).1
  · intro f hf t
    obtain ⟨v, -, rfl⟩ := mem_vulnerabilitySection hf
    exact (kind_vulnerabilityAlert dep v t).1
  · intro f hf t
    rw [mem_untrustedSection hf]
    exact (kind_untrustedSourceAlert dep t).1

theorem filter_isVulnerabilityAlert (verify : Guardian → Package → Bool)
    (scg : Guardian) (dep : Package) (clock : Clock) :
    (generateDependencyAlertsWith verify scg dep clock).1.filter isVulnerabilityAlert
      = stamp (clock.advance (untrustedSection scg dep).length)
          (vulnerabilitySection scg dep) := by
  rw [alerts_by_section]
  simp only [List.filter_append]
  rw [filter_stamp_eq_nil _ _ (untrustedSection scg dep), filter_stamp_eq_self _ _
    (vulnerabilitySection scg dep), filter_stamp_eq_nil _ _ (maliciousSection scg dep),
    filter_stamp_eq_nil _ _ (signatureSection verify scg dep)]
  · simp
  · intro f hf t
    rw [mem_signatureSection hf]
    exact (kind_invalidSignatureAlert dep t).2.1
  · intro f hf t
    obtain ⟨r, -, rfl⟩ := mem_maliciousSection hf
    exact (kind_maliciousPackageAlert dep r t).2.1
  · intro f hf t
    obtain ⟨v, -, rfl⟩ := mem_vulnerabilitySection hf
    exact (kind_vulnerabilityAlert dep v t).2.1
  · intro f hf t
    rw [mem_untrustedSection hf]
    exact (kind_untrustedSourceAlert dep t).2.1

theorem filter_isMaliciousPackageAlert (verify : Guardian → Package → Bool)
    (scg : Guardian) (dep : Package) (clock : Clock) :
    (generateDependencyAlertsWith verify scg dep clock).1.filter isMaliciousPackageAlert
      = stamp (clock.advance ((untrustedSection scg dep).length
          + (vulnerabilitySection scg dep).length)) (maliciousSection scg dep) := by
  rw [alerts_by_section]
  simp only [List.filter_append]
  rw [filter_stamp_eq_nil _ _ (untrustedSection scg dep), filter_stamp_eq_nil _ _
    (vulnerabilitySection scg dep), filter_stamp_eq_self _ _ (maliciousSection scg dep),
    filter_stamp_eq_nil _ _ (signatureSection verify scg dep)]
  · simp
  · intro f hf t
    rw [mem_signatureSection hf]
    exact (kind_invalidSignatureAlert dep t).2.2.1
  · intro f hf t
    obtain ⟨r, -, rfl⟩ := mem_maliciousSection hf
    exact (kind_maliciousPackageAlert dep r t).2.2.1
  · intro f hf t
    obtain ⟨v, -, rfl⟩ := mem_vulnerabilitySection hf
    exact (kind_vulnerabilityAlert dep v t).2.2.1
  · intro f hf t
    rw [mem_untrustedSection hf]
    exact (kind_untrustedSourceAlert dep t).2.2.1

theorem filter_isInvalidSignatureAlert (verify : Guardian → Package → Bool)
    (scg : Guardian) (dep : Package) (clock : Clock) :
    (generateDependencyAlertsWith verify scg dep clock).1.filter isInvalidSignatureAlert
      = stamp (clock.advance ((untrustedSection scg dep).length
          + (vulnerabilitySection scg dep).length + (maliciousSection scg dep).length))
          (signatureSection verify scg dep) := by
  rw [alerts_by_section]
  simp only [List.filter_append]
  rw [filter_stamp_eq_nil _ _ (untrustedSection scg dep), filter_stamp_eq_nil _ _
    (vulnerabilitySection scg dep), filter_stamp_eq_nil _ _ (maliciousSection scg dep),
    filter_stamp_eq_self _ _ (signatureSection verify scg dep)]
  · simp
  · intro f hf t
    rw [mem_signatureSection hf]
    exact (kind_invalidSignatureAlert dep t).2.2.2
  · intro f hf t
    obtain ⟨r, -, rfl⟩ := mem_maliciousSection hf
    exact (kind_maliciousPackageAlert dep r t).2.2.2
  · intro f hf t
    obtain ⟨v, -, rfl⟩ := mem_vulnerabilitySection hf
    exact (kind_vulnerabilityAlert dep v t).2.2.2
  · intro f hf t
    rw [mem_untrustedSection hf]
    exact (kind_untrustedSourceAlert dep t).2.2.2

/-! ## Severity thresholds -/

/-- C1: for every score `s` that is a number (every `float64` but NaN, so every
CVSS score), `getSeverityFromCVSS s` is "CRITICAL" iff `s >= 9.0`, "HIGH" iff
`7.0 <= s < 9.0`, "MEDIUM" iff `4.0 <= s < 7.0` and "LOW" iff `s < 4.0`; the
boundaries 9.0, 7.0 and 4.0 fall in the upper class. -/
theorem getSeverityFromCVSS_thresholds (s : Float64) (hs : s.isNumber = true) :
    (getSeverityFromCVSS s = "CRITICAL" ↔ s.ge (.fin 9) = true)
    ∧ (getSeverityFromCVSS s = "HIGH" ↔ (Float64.fin 7).le s = true ∧ s.lt (.fin 9) = true)
    ∧ (getSeverityFromCVSS s = "MEDIUM" ↔ (Float64.fin 4).le s = true ∧ s.lt (.fin 7) = true)
    ∧ (getSeverityFromCVSS s = "LOW" ↔ s.lt (.fin 4) = true)
    ∧ getSeverityFromCVSS (.fin 9) = "CRITICAL"
    ∧ getSeverityFromCVSS (.fin 7) = "HIGH"
    ∧ getSeverityFromCVSS (.fin 4) = "MEDIUM" := by
  refine ⟨?_, ?_, ?_, ?_, by decide, by decide, by decide⟩ <;>
  cases s with
  | nan => simp [Float64.isNumber] at hs
  | negInf => decide
  | posInf => decide
  | fin q =>
    simp only [getSeverityFromCVSS, Float64.ge, Float64.le, Float64.lt, decide_eq_true_eq]
    by_cases h9 : (9 : ℚ) ≤ q <;> by_cases h7 : (7 : ℚ) ≤ q <;> by_cases h4 : (4 : ℚ) ≤ q <;>
    simp [h9, h7, h4] <;> linarith

/-- C1, at the score 7.5: it is a number and it is classified HIGH. -/
theorem getSeverityFromCVSS_thresholds_witness :
    (Float64.fin (mkRat 15 2)).isNumber = true
    ∧ ((getSeverityFromCVSS (.fin (mkRat 15 2)) = "CRITICAL"
          ↔ (Float64.fin (mkRat 15 2)).ge (.fin 9) = true)
      ∧ (getSeverityFromCVSS (.fin (mkRat 15 2)) = "HIGH"
          ↔ (Float64.fin 7).le (.fin (mkRat 15 2)) = true
            ∧ (Float64.fin (mkRat 15 2)).lt (.fin 9) = true)
      ∧ (getSeverityFromCVSS (.fin (mkRat 15 2)) = "MEDIUM"
          ↔ (Float64.fin 4).le (.fin (mkRat 15 2)) = true
            ∧ (Float64.fin (mkRat 15 2)).lt (.fin 7) = true)
      ∧ (getSeverityFromCVSS (.fin (mkRat 15 2)) = "LOW"
          ↔ (Float64.fin (mkRat 15 2)).lt (.fin 4) = true)
      ∧ getSeverityFromCVSS (.fin 9) = "CRITICAL"
      ∧ getSeverityFromCVSS (.fin 7) = "HIGH"
      ∧ getSeverityFromCVSS (.fin 4) = "MEDIUM") :=
  ⟨by decide, getSeverityFromCVSS_thresholds (.fin (mkRat 15 2)) (by decide)⟩

/-! ## Malicious hashes -/

/-- C2: when the hash of `dep` is a key of `KnownMaliciousHashes`, the alerts of
`generateDependencyAlerts` hold exactly one malicious-package alert, with
severity "CRITICAL" and the removal remediation, whatever the source, the
signatures, the verdict of the verifier and the index entries are (the method
itself is the case `verify = verifySignatures`). -/
theorem malicious_hash_not_suppressed (verify : Guardian → Package → Bool)
    (scg : Guardian) (dep : Package) (clock : Clock)
    (h : (scg.KnownMaliciousHashes dep.Hash).isSome = true) :
    ∃ a, (generateDependencyAlertsWith verify scg dep clock).1.filter isMaliciousPackageAlert = [a]
      ∧ a.Severity = "CRITICAL"
      ∧ a.Remediation = "Remove package immediately and investigate system compromise" := by
  obtain ⟨r, hr⟩ := Option.isSome_iff_exists.1 h
  have hm : maliciousSection scg dep = [maliciousPackageAlert dep r] := by
    simp [maliciousSection, hr]
  refine ⟨maliciousPackageAlert dep r ((clock.advance ((untrustedSection scg dep).length
    + (vulnerabilitySection scg dep).length)) 0), ?_, rfl, rfl⟩
  rw [filter_isMaliciousPackageAlert, hm]
  rfl

/-- C2, on a trusted, signed package with a registered hash and a rejecting verifier. -/
theorem malicious_hash_not_suppressed_witness :
    (sampleGuardian.KnownMaliciousHashes samplePackage.Hash).isSome = true
    ∧ ∃ a, (generateDependencyAlertsWith rejectAll sampleGuardian samplePackage
          tickingClock).1.filter isMaliciousPackageAlert = [a]
      ∧ a.Severity = "CRITICAL"
      ∧ a.Remediation = "Remove package immediately and investigate system compromise" :=
  ⟨by decide, malicious_hash_not_suppressed rejectAll sampleGuardian samplePackage tickingClock
    (by decide)⟩

/-! ## Canonical order -/

/-- C3: the alerts of `generateDependencyAlerts` are exactly the canonical
order: the untrusted-source alert if no trusted source starts the package
source, then one vulnerability alert per stored vulnerability in stored order,
then the malicious-package alert if the hash is registered, then the
invalid-signature alert if there are signatures and verification fails; the
`k`-th alert carries the `k`-th clock reading and nothing else is produced. -/
theorem generateDependencyAlerts_canonical_order (verify : Guardian → Package → Bool)
    (scg : Guardian) (dep : Package) (clock : Clock) :
    (generateDependencyAlertsWith verify scg dep clock).1
        = stamp clock (canonicalOrder verify scg dep)
    ∧ (generateDependencyAlerts scg dep clock).1
        = stamp clock (canonicalOrder verifySignatures scg dep) :=
  ⟨congrArg Prod.fst (generateDependencyAlertsWith_eq verify scg dep clock),
    congrArg Prod.fst (generateDependencyAlertsWith_eq verifySignatures scg dep clock)⟩

/-! ## Determinism up to the clock -/

theorem content_mem_canonicalOrder {verify : Guardian → Package → Bool} {scg : Guardian}
    {dep : Package} {f : Time → Alert} (h : f ∈ canonicalOrder verify scg dep) (t t' : Time) :
    (f t).content = (f t').content ∧ (f t).DetectedAt = t := by
  simp only [canonicalOrder, List.mem_append] at h
  rcases h with ((h | h) | h) | h
  · rw [mem_untrustedSection h]
    exact ⟨rfl, rfl⟩
  · obtain ⟨v, -, rfl⟩ := mem_vulnerabilitySection h
    exact ⟨rfl, rfl⟩
  · obtain ⟨r, -, rfl⟩ := mem_maliciousSection h
    exact ⟨rfl, rfl⟩
  · rw [mem_signatureSection h]
    exact ⟨rfl, rfl⟩

theorem map_content_stamp (c c' : Clock) (fs : List (Time → Alert))
    (h : ∀ f ∈ fs, ∀ t t', (f t).content = (f t').content) :
    (stamp c fs).map Alert.content = (stamp c' fs).map Alert.content := by
  induction fs generalizing c c' with
  | nil => rfl
  | cons f fs ih =>
    simp only [stamp, List.map_cons]
    rw [h f (List.mem_cons_self _ _) (c 0) (c' 0),
      ih c.now.2 c'.now.2 (fun g hg => h g (List.mem_cons_of_mem _ hg))]

theorem map_detectedAt_stamp (c : Clock) (fs : List (Time → Alert))
    (h : ∀ f ∈ fs, ∀ t, (f t).DetectedAt = t) :
    (stamp c fs).map Alert.DetectedAt = (List.range fs.length).map c := by
  induction fs generalizing c with
  | nil => rfl
  | cons f fs ih =>
    simp only [stamp, List.map_cons, List.length_cons]
    rw [h f (List.mem_cons_self _ _), ih c.now.2 (fun g hg => h g (List.mem_cons_of_mem _ hg)),
      List.range_succ_eq_map, List.map_cons, List.map_map]
    rfl

/-- C4, as the code has it: two calls of `generateDependencyAlerts` with the
same package and guardian state, at any two clocks, return alert sequences of
the same length that agree position by position in Severity, Message, Package
and Remediation; DetectedAt is not part of the agreement: the `k`-th alert of a
call carries the `k`-th reading that call takes from `time.Now()`. -/
theorem generateDependencyAlerts_deterministic_up_to_clock
    (verify : Guardian → Package → Bool) (scg : Guardian) (dep : Package) (c c' : Clock) :
    (generateDependencyAlertsWith verify scg dep c).1.map Alert.content
        = (generateDependencyAlertsWith verify scg dep c').1.map Alert.content
    ∧ (generateDependencyAlertsWith verify scg dep c).1.length
        = (generateDependencyAlertsWith verify scg dep c').1.length
    ∧ (generateDependencyAlertsWith verify scg dep c).1.map Alert.DetectedAt
        = (List.range (generateDependencyAlertsWith verify scg dep c).1.length).map c := by
  simp only [generateDependencyAlertsWith_eq, length_stamp]
  exact ⟨map_content_stamp c c' _ (fun f hf t t' => (content_mem_canonicalOrder hf t t').1),
    trivial,
    map_detectedAt_stamp c _ (fun f hf t => (content_mem_canonicalOrder hf t t).2)⟩

/-- C4 fails as stated: a second call right after the first, same package and
same guardian, returns an alert with another DetectedAt (1001 after 1000), so
the two sequences are not identical. -/
theorem generateDependencyAlerts_not_deterministic :
    (generateDependencyAlerts sampleGuardian strayPackage tickingClock).1.map Alert.DetectedAt
        = [1000]
    ∧ (generateDependencyAlerts sampleGuardian strayPackage
        (generateDependencyAlerts sampleGuardian strayPackage tickingClock).2).1.map
          Alert.DetectedAt = [1001]
    ∧ (generateDependencyAlerts sampleGuardian strayPackage tickingClock).1
        ≠ (generateDependencyAlerts sampleGuardian strayPackage
            (generateDependencyAlerts sampleGuardian strayPackage tickingClock).2).1 := by
  decide

/-! ## Trust check -/

/-- C5: `isFromTrustedSource pkg` is true iff the package source starts with an
element of `TrustedSources`; the alerts hold an untrusted-source alert iff it
is false, and then exactly one, the first alert built, with severity "HIGH" and
the advice to switch to a trusted repository. -/
theorem trust_check (verify : Guardian → Package → Bool) (scg : Guardian) (pkg : Package)
    (clock : Clock) :
    (isFromTrustedSource scg pkg = true
        ↔ ∃ s ∈ scg.TrustedSources, HasPrefix pkg.Source s = true)
    ∧ ((∃ a ∈ (generateDependencyAlertsWith verify scg pkg clock).1,
          isUntrustedSourceAlert a = true) ↔ isFromTrustedSource scg pkg = false)
    ∧ (generateDependencyAlertsWith verify scg pkg clock).1.filter isUntrustedSourceAlert
        = if isFromTrustedSource scg pkg = true then []
          else [{ Severity := "HIGH"
                  Message := "Package " ++ pkg.Name ++ " from untrusted source: " ++ pkg.Source
                  Package := pkg
                  DetectedAt := clock 0
                  Remediation := "Switch to a version from a trusted repository" }] := by
  have hf : (generateDependencyAlertsWith verify scg pkg clock).1.filter isUntrustedSourceAlert
      = if isFromTrustedSource scg pkg = true then [] else [untrustedSourceAlert pkg (clock 0)] := by
    rw [filter_isUntrustedSourceAlert, untrustedSection]
    by_cases h : isFromTrustedSource scg pkg = true
    · have h' : ¬ ∀ s ∈ scg.TrustedSources, HasPrefix pkg.Source s = false := by
        rw [← isFromTrustedSource_eq_false_iff, h]
        simp
      simp [h, h', stamp]
    · have h' : ∀ s ∈ scg.TrustedSources, HasPrefix pkg.Source s = false := by
        rw [← isFromTrustedSource_eq_false_iff]
        simpa using h
      rw [if_pos h', if_neg h]
      rfl
  refine ⟨isFromTrustedSource_loop_iff _ _, ?_, hf⟩
  have hex : (∃ a ∈ (generateDependencyAlertsWith verify scg pkg clock).1,
      isUntrustedSourceAlert a = true)
      ↔ (generateDependencyAlertsWith verify scg pkg clock).1.filter isUntrustedSourceAlert
          ≠ [] := by
    rw [Ne, List.filter_eq_nil_iff]
    push_neg
    rfl
  rw [hex, hf]
  by_cases h : isFromTrustedSource scg pkg = true <;> simp [h]

/-! ## Vulnerability check -/

/-- C6: the vulnerability alerts are as many as the vulnerabilities stored for
the package, the `i`-th has the severity `getSeverityFromCVSS` gives the score
of the `i`-th stored vulnerability, `checkVulnerabilities` returns what is
stored, and for a package without entry it returns the empty sequence and no
vulnerability alert is produced. -/
theorem vulnerability_check (verify : Guardian → Package → Bool) (scg : Guardian)
    (pkg : Package) (clock : Clock) :
    ((generateDependencyAlertsWith verify scg pkg clock).1.filter isVulnerabilityAlert).length
        = (storedVulnerabilities scg pkg).length
    ∧ ((generateDependencyAlertsWith verify scg pkg clock).1.filter isVulnerabilityAlert).map
          Alert.Severity
        = (storedVulnerabilities scg pkg).map (fun v => getSeverityFromCVSS v.CVSS)
    ∧ checkVulnerabilities scg pkg = storedVulnerabilities scg pkg
    ∧ (scg.VulnerabilityDB (pkg.Name ++ "@" ++ pkg.Version) = none →
        checkVulnerabilities scg pkg = []
        ∧ (generateDependencyAlertsWith verify scg pkg clock).1.filter isVulnerabilityAlert
            = []) := by
  rw [filter_isVulnerabilityAlert]
  refine ⟨?_, stamp_map_vulnerabilityAlert _ _ _, checkVulnerabilities_eq _ _, ?_⟩
  · simp [length_stamp, vulnerabilitySection]
  · intro h
    simp [checkVulnerabilities_eq, vulnerabilitySection, storedVulnerabilities, h, stamp]

/-- C6, on a package that has no entry in the index. -/
theorem vulnerability_check_witness :
    sampleGuardian.VulnerabilityDB (strayPackage.Name ++ "@" ++ strayPackage.Version) = none
    ∧ checkVulnerabilities sampleGuardian strayPackage = []
    ∧ (generateDependencyAlertsWith rejectAll sampleGuardian strayPackage
        tickingClock).1.filter isVulnerabilityAlert = [] :=
  ⟨by decide,
    (vulnerability_check rejectAll sampleGuardian strayPackage tickingClock).2.2.2 (by decide)⟩

/-! ## Signature check -/

/-- C7: for a package without signatures no alert of `generateDependencyAlerts`
has a message that starts with "Invalid signature", whatever the verifier
would answer. -/
theorem no_signature_alert_without_signatures (verify : Guardian → Package → Bool)
    (scg : Guardian) (dep : Package) (clock : Clock) (h : dep.Signatures = []) :
    ∀ a ∈ (generateDependencyAlertsWith verify scg dep clock).1,
      HasPrefix a.Message "Invalid signature" = false := by
  have hf := filter_isInvalidSignatureAlert verify scg dep clock
  simp only [signatureSection, h, ne_eq, not_true_eq_false, false_and, if_false, stamp,
    List.filter_eq_nil_iff] at hf
  intro a ha
  simpa [isInvalidSignatureAlert] using hf a ha

/-- C7, on an unsigned package and a verifier that would reject it. -/
theorem no_signature_alert_without_signatures_witness :
    strayPackage.Signatures = []
    ∧ ∀ a ∈ (generateDependencyAlertsWith rejectAll sampleGuardian strayPackage tickingClock).1,
      HasPrefix a.Message "Invalid signature" = false :=
  ⟨rfl, no_signature_alert_without_signatures rejectAll sampleGuardian strayPackage
    tickingClock rfl⟩

/-! ## Remediation of vulnerability alerts -/

/-- C9, as the code has it: the remediation of the `i`-th vulnerability alert
is "Update to version ", the FixedIn of the `i`-th stored vulnerability, then
" or later"; so it contains FixedIn, and no other wording exists for an empty
FixedIn. -/
theorem vulnerability_remediation (verify : Guardian → Package → Bool) (scg : Guardian)
    (dep : Package) (clock : Clock) :
    ((generateDependencyAlertsWith verify scg dep clock).1.filter isVulnerabilityAlert).map
        Alert.Remediation
      = (storedVulnerabilities scg dep).map
          (fun v => "Update to version " ++ v.FixedIn ++ " or later")
    ∧ ∀ v : Vulnerability,
        Contains ("Update to version " ++ v.FixedIn ++ " or later") v.FixedIn = true := by
  refine ⟨?_, fun v => contains_middle _ _ _⟩
  rw [filter_isVulnerabilityAlert, vulnerabilitySection]
  generalize clock.advance (untrustedSection scg dep).length = c
  induction storedVulnerabilities scg dep generalizing c with
  | nil => rfl
  | cons v vs ih => simp [stamp, ih, vulnerabilityAlert]

/-- C9 fails as stated: for a stored vulnerability with an empty FixedIn the
one alert has the remediation "Update to version  or later", which says
nothing of a missing fix. -/
theorem vulnerability_remediation_empty_fixedIn :
    (storedVulnerabilities unfixedGuardian unfixedPackage).map Vulnerability.FixedIn = [""]
    ∧ (generateDependencyAlerts unfixedGuardian unfixedPackage tickingClock).1.map
        Alert.Remediation = ["Update to version  or later"]
    ∧ Contains "Update to version  or later" "fix" = false
    ∧ Contains "Update to version  or later" "Fix" = false
    ∧ Contains "Update to version  or later" "available" = false
    ∧ Contains "Update to version  or later" "no " = false
    ∧ Contains "Update to version  or later" "No " = false := by
  decide

/-! ## SBOM signer -/

/-- C10, as the code has it: `generateSBOMSignature` returns the fixed chain of
two entries for every SBOM, whatever chain the SBOM carries, and `ScanProject`
stores that chain, so the stored chain has length 2. -/
theorem generateSBOMSignature_fixed_chain (scg : Guardian) (s : SBOM) (projectPath : String)
    (clock : Clock) :
    generateSBOMSignature scg s = ["signature1", "signature2"]
    ∧ (generateSBOMSignature scg s).length = 2
    ∧ (ScanProject scg projectPath clock).1.1.SignatureChain = ["signature1", "signature2"]
    ∧ (ScanProject scg projectPath clock).1.1.SignatureChain.length = 2 :=
  ⟨rfl, rfl, rfl, rfl⟩

/-- C10 fails as stated: signing an SBOM with an empty chain gives a chain of
length 2, not 1, and signing one with three entries gives length 2, not 4: the
length can grow by two and can shrink. -/
theorem generateSBOMSignature_not_plus_one :
    unsignedSBOM.SignatureChain.length = 0
    ∧ (generateSBOMSignature NewSupplyChainGuardian unsignedSBOM).length = 2
    ∧ (generateSBOMSignature NewSupplyChainGuardian unsignedSBOM).length
        ≠ unsignedSBOM.SignatureChain.length + 1
    ∧ resignedSBOM.SignatureChain.length = 3
    ∧ (generateSBOMSignature NewSupplyChainGuardian resignedSBOM).length = 2
    ∧ (generateSBOMSignature NewSupplyChainGuardian resignedSBOM).length
        < resignedSBOM.SignatureChain.length := by
  decide

/-! ## Scan orchestrator -/

/-- C11: for every guardian state, project path and clock, `ScanProject`
returns an SBOM with zero Dependencies (each scanner returns the empty list), an
alert sequence of length zero, and a SignatureChain of length at least 1. -/
theorem ScanProject_empty (scg : Guardian) (projectPath : String) (clock : Clock) :
    (ScanProject scg projectPath clock).1.1.Dependencies.length = 0
    ∧ (ScanProject scg projectPath clock).1.2.length = 0
    ∧ (ScanProject scg projectPath clock).1.1.SignatureChain.length ≥ 1
    ∧ scanNodeDependencies scg projectPath = []
    ∧ scanPythonDependencies scg projectPath = []
    ∧ scanMavenDependencies scg projectPath = [] := by
  have h : (ScanProject scg projectPath clock).1.1.SignatureChain
      = ["signature1", "signature2"] := rfl
  refine ⟨rfl, rfl, ?_, rfl, rfl, rfl⟩
  rw [h]
  decide

/-! ## The examples of section 8 -/

/-- C12: for the guardian of `NewSupplyChainGuardian` with the hash "abc123"
registered as malicious (for any reason), `generateDependencyAlerts` on the
package left-pad 1.0.0 from "https://evil.example" with hash "abc123" and no
signatures returns exactly two alerts: the HIGH untrusted-source alert, then
the CRITICAL malicious-package alert. -/
theorem left_pad_example (reason : String) (clock : Clock) :
    (generateDependencyAlerts (registerMalicious NewSupplyChainGuardian "abc123" reason)
        leftPad clock).1
      = [ { Severity := "HIGH"
            Message := "Package left-pad from untrusted source: https://evil.example"
            Package := leftPad
            DetectedAt := clock 0
            Remediation := "Switch to a version from a trusted repository" },
          { Severity := "CRITICAL"
            Message := "MALICIOUS PACKAGE DETECTED: left-pad@1.0.0 - " ++ reason
            Package := leftPad
            DetectedAt := clock 1
            Remediation := "Remove package immediately and investigate system compromise" } ]
    ∧ isUntrustedSourceAlert
        { Severity := "HIGH"
          Message := "Package left-pad from untrusted source: https://evil.example"
          Package := leftPad
          DetectedAt := clock 0
          Remediation := "Switch to a version from a trusted repository" } = true
    ∧ isMaliciousPackageAlert
        { Severity := "CRITICAL"
          Message := "MALICIOUS PACKAGE DETECTED: left-pad@1.0.0 - " ++ reason
          Package := leftPad
          DetectedAt := clock 1
          Remediation := "Remove package immediately and investigate system compromise" }
        = true := by
  have hp : HasPrefix "Package left-pad from untrusted source: https://evil.example" "Package "
      = true := by decide
  have ht : ∀ s ∈ NewSupplyChainGuardian.TrustedSources,
      HasPrefix "https://evil.example" s = false := by decide
  refine ⟨?_, hp, ?_⟩
  · have hu : untrustedSection (registerMalicious NewSupplyChainGuardian "abc123" reason) leftPad
        = [untrustedSourceAlert leftPad] := by
      exact if_pos ht
    have hv : vulnerabilitySection (registerMalicious NewSupplyChainGuardian "abc123" reason)
        leftPad = [] := rfl
    have hm : maliciousSection (registerMalicious NewSupplyChainGuardian "abc123" reason) leftPad
        = [maliciousPackageAlert leftPad reason] := by
      simp [maliciousSection, registerMalicious, GoMap.insert, leftPad]
    have hs : signatureSection verifySignatures
        (registerMalicious NewSupplyChainGuardian "abc123" reason) leftPad = [] := by
      simp [signatureSection, verifySignatures]
    rw [generateDependencyAlerts, generateDependencyAlertsWith_eq, canonicalOrder, hu, hv, hm, hs]
    simp only [List.append_nil, List.singleton_append, stamp, Clock.now, maliciousPackageAlert,
      untrustedSourceAlert, leftPad]
    simp [String.append_assoc]
  · exact hasPrefix_append_of_hasPrefix _ _ _ (by decide)

/-- C13: for a package from a trusted source, with an unregistered hash and no
signatures, whose index entry is a single vulnerability with CVSS 9.5 (the
rational 19/2) and FixedIn "2.0.0", `generateDependencyAlerts` returns exactly
one alert, with severity "CRITICAL" and a remediation that contains "2.0.0". -/
theorem critical_vulnerability_example (scg : Guardian) (dep : Package) (clock : Clock)
    (v : Vulnerability)
    (htrust : isFromTrustedSource scg dep = true)
    (hhash : scg.KnownMaliciousHashes dep.Hash = none)
    (hsig : dep.Signatures = [])
    (hidx : scg.VulnerabilityDB (dep.Name ++ "@" ++ dep.Version) = some [v])
    (hcvss : v.CVSS = .fin (mkRat 19 2))
    (hfix : v.FixedIn = "2.0.0") :
    ∃ a, (generateDependencyAlerts scg dep clock).1 = [a]
      ∧ a.Severity = "CRITICAL"
      ∧ a.Remediation = "Update to version 2.0.0 or later"
      ∧ Contains a.Remediation "2.0.0" = true := by
  have hu : untrustedSection scg dep = [] := by
    rw [untrustedSection, if_neg]
    rw [← isFromTrustedSource_eq_false_iff, htrust]
    simp
  have hv : vulnerabilitySection scg dep = [vulnerabilityAlert dep v] := by
    simp [vulnerabilitySection, storedVulnerabilities, hidx]
  have hm : maliciousSection scg dep = [] := by
    simp [maliciousSection, hhash]
  have hs : signatureSection verifySignatures scg dep = [] := by
    simp [signatureSection, hsig]
  refine ⟨vulnerabilityAlert dep v (clock 0), ?_, ?_, ?_, ?_⟩
  · rw [generateDependencyAlerts, generateDependencyAlertsWith_eq, canonicalOrder, hu, hv, hm,
      hs]
    rfl
  · show getSeverityFromCVSS v.CVSS = "CRITICAL"
    rw [hcvss]
    decide
  · show "Update to version " ++ v.FixedIn ++ " or later" = _
    rw [hfix]
    decide
  · show Contains ("Update to version " ++ v.FixedIn ++ " or later") "2.0.0" = true
    rw [hfix]
    decide

/-- C13, on the express package and its one index entry. -/
theorem critical_vulnerability_example_witness :
    isFromTrustedSource expressGuardian expressPackage = true
    ∧ expressGuardian.KnownMaliciousHashes expressPackage.Hash = none
    ∧ expressPackage.Signatures = []
    ∧ expressGuardian.VulnerabilityDB (expressPackage.Name ++ "@" ++ expressPackage.Version)
        = some [criticalVulnerability]
    ∧ ∃ a, (generateDependencyAlerts expressGuardian expressPackage tickingClock).1 = [a]
      ∧ a.Severity = "CRITICAL"
      ∧ a.Remediation = "Update to version 2.0.0 or later"
      ∧ Contains a.Remediation "2.0.0" = true :=
  ⟨by decide, by decide, rfl, by decide,
    critical_vulnerability_example expressGuardian expressPackage tickingClock
      criticalVulnerability (by decide) (by decide) rfl (by decide) rfl rfl⟩

/-! ## Invariants of the alerts -/

theorem mem_canonicalOrder {verify : Guardian → Package → Bool} {scg : Guardian}
    {dep : Package} {f : Time → Alert} (h : f ∈ canonicalOrder verify scg dep) :
    f = untrustedSourceAlert dep
    ∨ (∃ v ∈ storedVulnerabilities scg dep, f = vulnerabilityAlert dep v)
    ∨ (∃ r, scg.KnownMaliciousHashes dep.Hash = some r ∧ f = maliciousPackageAlert dep r)
    ∨ f = invalidSignatureAlert dep := by
  simp only [canonicalOrder, List.mem_append] at h
  rcases h with ((h | h) | h) | h
  · exact Or.inl (mem_untrustedSection h)
  · exact Or.inr (Or.inl (mem_vulnerabilitySection h))
  · exact Or.inr (Or.inr (Or.inl (mem_maliciousSection h)))
  · exact Or.inr (Or.inr (Or.inr (mem_signatureSection h)))

theorem mem_alerts {verify : Guardian → Package → Bool} {scg : Guardian} {dep : Package}
    {clock : Clock} {a : Alert} (h : a ∈ (generateDependencyAlertsWith verify scg dep clock).1) :
    ∃ t, a = untrustedSourceAlert dep t
      ∨ (∃ v ∈ storedVulnerabilities scg dep, a = vulnerabilityAlert dep v t)
      ∨ (∃ r, scg.KnownMaliciousHashes dep.Hash = some r ∧ a = maliciousPackageAlert dep r t)
      ∨ a = invalidSignatureAlert dep t := by
  rw [generateDependencyAlertsWith_eq] at h
  obtain ⟨f, hf, t, rfl⟩ := mem_stamp h
  refine ⟨t, ?_⟩
  rcases mem_canonicalOrder hf with h | ⟨v, hv, h⟩ | ⟨r, hr, h⟩ | h
  · exact Or.inl (by rw [h])
  · exact Or.inr (Or.inl ⟨v, hv, by rw [h]⟩)
  · exact Or.inr (Or.inr (Or.inl ⟨r, hr, by rw [h]⟩))
  · exact Or.inr (Or.inr (Or.inr (by rw [h])))

theorem getSeverityFromCVSS_mem (s : Float64) :
    getSeverityFromCVSS s = "LOW" ∨ getSeverityFromCVSS s = "MEDIUM"
      ∨ getSeverityFromCVSS s = "HIGH" ∨ getSeverityFromCVSS s = "CRITICAL" := by
  unfold getSeverityFromCVSS
  split
  · exact Or.inr (Or.inr (Or.inr rfl))
  · split
    · exact Or.inr (Or.inr (Or.inl rfl))
    · split
      · exact Or.inr (Or.inl rfl)
      · exact Or.inl rfl

/-- C14: every alert returned by `generateDependencyAlerts dep` holds `dep`
itself in its Package field, so it equals `dep` in Name, Version, Source, Hash
and Signatures, for every guardian state, verifier, clock and package. -/
theorem alert_embeds_package (verify : Guardian → Package → Bool) (scg : Guardian)
    (dep : Package) (clock : Clock) (a : Alert)
    (ha : a ∈ (generateDependencyAlertsWith verify scg dep clock).1) :
    a.Package = dep
    ∧ a.Package.Name = dep.Name ∧ a.Package.Version = dep.Version
    ∧ a.Package.Source = dep.Source ∧ a.Package.Hash = dep.Hash
    ∧ a.Package.Signatures = dep.Signatures := by
  have h : a.Package = dep := by
    obtain ⟨t, h | ⟨v, -, h⟩ | ⟨r, -, h⟩ | h⟩ := mem_alerts ha <;> rw [h] <;> rfl
  rw [h]
  exact ⟨rfl, rfl, rfl, rfl, rfl, rfl⟩

/-- C14, on the malicious-package alert of the sample package. -/
theorem alert_embeds_package_witness :
    maliciousPackageAlert samplePackage "typosquat" 1002
        ∈ (generateDependencyAlertsWith verifySignatures sampleGuardian samplePackage
            tickingClock).1
    ∧ ((maliciousPackageAlert samplePackage "typosquat" 1002).Package = samplePackage
      ∧ (maliciousPackageAlert samplePackage "typosquat" 1002).Package.Name = samplePackage.Name
      ∧ (maliciousPackageAlert samplePackage "typosquat" 1002).Package.Version
          = samplePackage.Version
      ∧ (maliciousPackageAlert samplePackage "typosquat" 1002).Package.Source
          = samplePackage.Source
      ∧ (maliciousPackageAlert samplePackage "typosquat" 1002).Package.Hash = samplePackage.Hash
      ∧ (maliciousPackageAlert samplePackage "typosquat" 1002).Package.Signatures
          = samplePackage.Signatures) :=
  ⟨by decide, alert_embeds_package verifySignatures sampleGuardian samplePackage tickingClock _
    (by decide)⟩

/-- C15: every alert returned by `generateDependencyAlerts` has a severity among
"LOW", "MEDIUM", "HIGH" and "CRITICAL", for every guardian state, verifier,
clock and package, whatever the stored CVSS values are (NaN and infinities
included). -/
theorem alert_severity_in_range (verify : Guardian → Package → Bool) (scg : Guardian)
    (dep : Package) (clock : Clock) (a : Alert)
    (ha : a ∈ (generateDependencyAlertsWith verify scg dep clock).1) :
    a.Severity = "LOW" ∨ a.Severity = "MEDIUM" ∨ a.Severity = "HIGH"
      ∨ a.Severity = "CRITICAL" := by
  obtain ⟨t, h | ⟨v, -, h⟩ | ⟨r, -, h⟩ | h⟩ := mem_alerts ha
  · rw [h]
    exact Or.inr (Or.inr (Or.inl rfl))
  · rw [h]
    exact getSeverityFromCVSS_mem v.CVSS
  · rw [h]
    exact Or.inr (Or.inr (Or.inr rfl))
  · rw [h]
    exact Or.inr (Or.inr (Or.inl rfl))

/-- C15, on the alert for a vulnerability whose stored score is a NaN. -/
theorem alert_severity_in_range_witness :
    oddScoreAlert
        ∈ (generateDependencyAlertsWith verifySignatures oddScoreGuardian unfixedPackage
            tickingClock).1
    ∧ (oddScoreAlert.Severity = "LOW" ∨ oddScoreAlert.Severity = "MEDIUM"
      ∨ oddScoreAlert.Severity = "HIGH" ∨ oddScoreAlert.Severity = "CRITICAL") :=
  ⟨by decide, alert_severity_in_range verifySignatures oddScoreGuardian unfixedPackage
    tickingClock oddScoreAlert (by decide)⟩

/-! ## The index key -/

/-- Splitting at the first separator: two texts without `c` before the same
separator `c` agree as soon as the whole lists agree. -/
theorem append_sep_inj {α : Type} {c : α} {a a' b b' : List α} (ha : c ∉ a) (ha' : c ∉ a')
    (h : a ++ c :: b = a' ++ c :: b') : a = a' ∧ b = b' := by
  induction a generalizing a' with
  | nil =>
    cases a' with
    | nil => exact ⟨rfl, by simpa using h⟩
    | cons y as' =>
      simp only [List.nil_append, List.cons_append, List.cons.injEq] at h
      exact absurd (List.mem_cons.2 (Or.inl h.1)) ha'
  | cons x as ih =>
    cases a' with
    | nil =>
      simp only [List.nil_append, List.cons_append, List.cons.injEq] at h
      exact absurd (List.mem_cons.2 (Or.inl h.1.symm)) ha
    | cons y as' =>
      simp only [List.cons_append, List.cons.injEq] at h
      obtain ⟨h1, h2⟩ := ih (fun hc => ha (List.mem_cons_of_mem _ hc))
        (fun hc => ha' (List.mem_cons_of_mem _ hc)) h.2
      exact ⟨by rw [h.1, h1], h2⟩

/-- Splitting at the last separator. -/
theorem append_sep_inj_right {α : Type} {c : α} {a a' b b' : List α} (hb : c ∉ b)
    (hb' : c ∉ b') (h : a ++ c :: b = a' ++ c :: b') : a = a' ∧ b = b' := by
  have hr : b.reverse ++ c :: a.reverse = b'.reverse ++ c :: a'.reverse := by
    have := congrArg List.reverse h
    simpa using this
  obtain ⟨h1, h2⟩ := append_sep_inj (by simpa using hb) (by simpa using hb') hr
  exact ⟨List.reverse_injective h2, List.reverse_injective h1⟩

theorem indexKey_data (pkg : Package) :
    (indexKey pkg).data = pkg.Name.data ++ '@' :: pkg.Version.data := by
  simp [indexKey, String.data_append]

theorem checkVulnerabilities_indexKey (scg : Guardian) (pkg : Package) :
    checkVulnerabilities scg pkg = (scg.VulnerabilityDB (indexKey pkg)).getD [] :=
  checkVulnerabilities_eq scg pkg

/-- C16, as the code has it: the lookup is keyed by the string Name@Version.
Two packages whose (Name, Version) pairs differ get different keys when
neither Name holds an "@", or when neither Version holds one; then storing an
entry under the key of one of them leaves what `checkVulnerabilities` returns
for the other unchanged. -/
theorem lookup_keyed_by_pair (p1 p2 : Package)
    (hne : (p1.Name, p1.Version) ≠ (p2.Name, p2.Version))
    (hsep : ('@' ∉ p1.Name.data ∧ '@' ∉ p2.Name.data)
      ∨ ('@' ∉ p1.Version.data ∧ '@' ∉ p2.Version.data)) :
    indexKey p1 ≠ indexKey p2
    ∧ ∀ (scg : Guardian) (vulns : List Vulnerability),
        checkVulnerabilities (registerVulnerabilities scg (indexKey p1) vulns) p2
          = checkVulnerabilities scg p2 := by
  have hk : indexKey p1 ≠ indexKey p2 := by
    intro h
    have hd : p1.Name.data ++ '@' :: p1.Version.data = p2.Name.data ++ '@' :: p2.Version.data := by
      rw [← indexKey_data, ← indexKey_data, h]
    have hsplit : p1.Name.data = p2.Name.data ∧ p1.Version.data = p2.Version.data := by
      rcases hsep with ⟨h1, h2⟩ | ⟨h1, h2⟩
      · exact append_sep_inj h1 h2 hd
      · exact append_sep_inj_right h1 h2 hd
    exact hne (Prod.ext (String.ext hsplit.1) (String.ext hsplit.2))
  refine ⟨hk, fun scg vulns => ?_⟩
  rw [checkVulnerabilities_indexKey, checkVulnerabilities_indexKey]
  simp [registerVulnerabilities, GoMap.insert, Ne.symm hk]

/-- C16, on two packages without separator in their names. -/
theorem lookup_keyed_by_pair_witness :
    (samplePackage.Name, samplePackage.Version) ≠ (strayPackage.Name, strayPackage.Version)
    ∧ (('@' ∉ samplePackage.Name.data ∧ '@' ∉ strayPackage.Name.data)
      ∨ ('@' ∉ samplePackage.Version.data ∧ '@' ∉ strayPackage.Version.data))
    ∧ (indexKey samplePackage ≠ indexKey strayPackage
      ∧ ∀ (scg : Guardian) (vulns : List Vulnerability),
          checkVulnerabilities (registerVulnerabilities scg (indexKey samplePackage) vulns)
            strayPackage = checkVulnerabilities scg strayPackage) :=
  ⟨by decide, Or.inl (by decide),
    lookup_keyed_by_pair samplePackage strayPackage (by decide) (Or.inl (by decide))⟩

/-- C16 fails as stated: the pairs ("lodash@4", "1") and ("lodash", "4@1")
differ, both are looked up under the key "lodash@4@1", and the entry stored for
the first is returned for the second. -/
theorem lookup_key_collision :
    (namedWithSeparator.Name, namedWithSeparator.Version)
        ≠ (versionedWithSeparator.Name, versionedWithSeparator.Version)
    ∧ indexKey namedWithSeparator = "lodash@4@1"
    ∧ indexKey versionedWithSeparator = "lodash@4@1"
    ∧ checkVulnerabilities NewSupplyChainGuardian versionedWithSeparator = []
    ∧ checkVulnerabilities separatorGuardian versionedWithSeparator = [criticalVulnerability]
    ∧ (generateDependencyAlerts separatorGuardian versionedWithSeparator tickingClock).1.map
        Alert.Message = ["Vulnerability CVE-4 found in lodash@4@1: rce"] := by
  decide

/-! ## Monotonicity of the severity -/

theorem severityRank_getSeverityFromCVSS (s : Float64) :
    severityRank (getSeverityFromCVSS s)
      = if s.ge (.fin 9) = true then 4
        else if s.ge (.fin 7) = true then 3
        else if s.ge (.fin 4) = true then 2
        else 1 := by
  unfold getSeverityFromCVSS
  split
  · rfl
  · split
    · rfl
    · split <;> rfl

/-- C17: `getSeverityFromCVSS` is monotone: for scores `s1 <= s2` (Go's
comparison) the severity of `s1` is no higher than the severity of `s2` in the
order LOW < MEDIUM < HIGH < CRITICAL, and both are among these four. -/
theorem getSeverityFromCVSS_monotone (s1 s2 : Float64) (h : s1.le s2 = true) :
    severityRank (getSeverityFromCVSS s1) ≤ severityRank (getSeverityFromCVSS s2)
    ∧ 1 ≤ severityRank (getSeverityFromCVSS s1) := by
  rw [severityRank_getSeverityFromCVSS, severityRank_getSeverityFromCVSS]
  cases s1 with
  | nan => simp [Float64.le] at h
  | negInf =>
    cases s2 with
    | nan => simp [Float64.le] at h
    | negInf => decide
    | posInf => decide
    | fin b =>
      simp only [Float64.ge, Float64.le, decide_eq_true_eq]
      by_cases h9 : (9 : ℚ) ≤ b <;> by_cases h7 : (7 : ℚ) ≤ b <;> by_cases h4 : (4 : ℚ) ≤ b <;>
      simp [h9, h7, h4]
  | posInf =>
    cases s2 with
    | nan => simp [Float64.le] at h
    | negInf => simp [Float64.le] at h
    | posInf => decide
    | fin b => simp [Float64.le] at h
  | fin a =>
    cases s2 with
    | nan => simp [Float64.le] at h
    | negInf => simp [Float64.le] at h
    | posInf =>
      simp only [Float64.ge, Float64.le, decide_eq_true_eq]
      by_cases h9 : (9 : ℚ) ≤ a <;> by_cases h7 : (7 : ℚ) ≤ a <;> by_cases h4 : (4 : ℚ) ≤ a <;>
      simp [h9, h7, h4]
    | fin b =>
      simp only [Float64.le, decide_eq_true_eq] at h
      simp only [Float64.ge, Float64.le, decide_eq_true_eq]
      by_cases a9 : (9 : ℚ) ≤ a <;> by_cases a7 : (7 : ℚ) ≤ a <;> by_cases a4 : (4 : ℚ) ≤ a <;>
      by_cases b9 : (9 : ℚ) ≤ b <;> by_cases b7 : (7 : ℚ) ≤ b <;> by_cases b4 : (4 : ℚ) ≤ b <;>
      simp [a9, a7, a4, b9, b7, b4] <;> linarith

/-- C17, on the scores 5 and 9.5: MEDIUM is no higher than CRITICAL. -/
theorem getSeverityFromCVSS_monotone_witness :
    (Float64.fin 5).le (.fin (mkRat 19 2)) = true
    ∧ (severityRank (getSeverityFromCVSS (.fin 5))
          ≤ severityRank (getSeverityFromCVSS (.fin (mkRat 19 2)))
      ∧ 1 ≤ severityRank (getSeverityFromCVSS (.fin 5))) :=
  ⟨by decide, getSeverityFromCVSS_monotone (.fin 5) (.fin (mkRat 19 2)) (by decide)⟩

/-! ## The placeholders -/

/-- C18: `generateSBOMSignature` returns the same chain for every SBOM (and every
guardian): the result does not depend on ProjectName, Version, GeneratedAt,
Dependencies or the existing SignatureChain, so two SBOMs that differ in all of
these receive identical chains. -/
theorem generateSBOMSignature_constant (scg scg' : Guardian) (s s' : SBOM) :
    generateSBOMSignature scg s = generateSBOMSignature scg' s'
    ∧ unsignedSBOM.ProjectName ≠ otherSBOM.ProjectName
    ∧ unsignedSBOM.Version ≠ otherSBOM.Version
    ∧ unsignedSBOM.GeneratedAt ≠ otherSBOM.GeneratedAt
    ∧ unsignedSBOM.Dependencies ≠ otherSBOM.Dependencies
    ∧ unsignedSBOM.SignatureChain ≠ otherSBOM.SignatureChain
    ∧ generateSBOMSignature scg unsignedSBOM = generateSBOMSignature scg otherSBOM :=
  ⟨rfl, by decide, by decide, by decide, by decide, by decide, rfl⟩

/-- C19: for every guardian state, package and clock, `verifySignatures` accepts
the package, `generateDependencyAlerts` returns no invalid-signature alert
(also for a non-empty Signatures), and the number of alerts is at least the
number of matched vulnerabilities and at most that number plus 2. -/
theorem no_signature_alert_ever (scg : Guardian) (dep : Package) (clock : Clock) :
    verifySignatures scg dep = true
    ∧ (generateDependencyAlerts scg dep clock).1.filter isInvalidSignatureAlert = []
    ∧ (checkVulnerabilities scg dep).length ≤ (generateDependencyAlerts scg dep clock).1.length
    ∧ (generateDependencyAlerts scg dep clock).1.length
        ≤ (checkVulnerabilities scg dep).length + 2 := by
  have hs : signatureSection verifySignatures scg dep = [] := by
    simp [signatureSection, verifySignatures]
  have hu : (untrustedSection scg dep).length ≤ 1 := by
    unfold untrustedSection
    split <;> simp
  have hm : (maliciousSection scg dep).length ≤ 1 := by
    unfold maliciousSection
    split <;> simp
  have hv : (vulnerabilitySection scg dep).length = (checkVulnerabilities scg dep).length := by
    simp [vulnerabilitySection, checkVulnerabilities_eq]
  have hlen : (generateDependencyAlerts scg dep clock).1.length
      = (untrustedSection scg dep).length + (vulnerabilitySection scg dep).length
        + (maliciousSection scg dep).length := by
    rw [generateDependencyAlerts, generateDependencyAlertsWith_eq, length_stamp, canonicalOrder,
      hs]
    simp [List.length_append, Nat.add_assoc]
  refine ⟨rfl, ?_, ?_, ?_⟩
  · rw [generateDependencyAlerts, filter_isInvalidSignatureAlert, hs]
    rfl
  · omega
  · omega

end SupplyChainGuardian
